import Mathlib

/-!
Shallow embedding of the `oai-5g-udr-operator` repository:

* `lib/charms/oai_5g_udr/v0/fiveg_udr.py` — the `FiveGUDRRequires` observer
  (field accessors, availability predicates, the `udr_available` emission on
  relation-changed) and the `FiveGUDRProvides` publisher
  (`set_udr_information`).
* `src/charm.py` — the `Oai5GUDROperatorCharm` reconciliation handlers
  (`_on_config_changed`, `_on_fiveg_udr_relation_joined`) and their helper
  predicates.

A Juju application databag is modelled as an association list from string
keys to string values with Python-`dict` update semantics (an existing key
keeps its position and gets the new value; a new key is appended).
-/

namespace FiveGUdr

/-- Lookup of a key in an application databag (Python `d.get(k, None)` /
`k in d` combined: `some v` when present, `none` when absent). -/
def lookupKey : List (String × String) → String → Option String
  | [], _ => none
  | (k', v) :: rest, k => if k' = k then some v else lookupKey rest k

/-- Write one key into an application databag with Python `dict` semantics:
an existing key keeps its position and receives the new value, a fresh key
is appended at the end. -/
def setKey : List (String × String) → String → String → List (String × String)
  | [], k, v => [(k, v)]
  | (k', v') :: rest, k, v =>
    if k' = k then (k, v) :: rest else (k', v') :: setKey rest k v

/-- One instance of the `fiveg-udr` relation channel: its Juju relation id,
the remote application (`relation.app`, `none` when no peer application is
known), the remote application's databag (read by the requirer) and this
application's own databag (written by the provider). -/
structure UdrRel where
  id : Nat
  remoteApp : Option String
  remoteAppData : List (String × String)
  localAppData : List (String × String)
  deriving Repr, DecidableEq

/-- The Python exceptions the embedded library code can raise. -/
inductive PyError where
  /-- `AttributeError`: attribute access on `None`
  (`relation.data` when `model.get_relation` returned `None`). -/
  | attributeError
  deriving Repr, DecidableEq

/-- Payload of the `udr_available` event (`UDRAvailableEvent`). -/
structure UDRRecord where
  udr_ipv4_address : String
  udr_fqdn : String
  udr_port : String
  udr_api_version : String
  deriving Repr, DecidableEq

/-! ### `FiveGUDRRequires` field accessors

Each accessor property runs
`relation = self.model.get_relation(relation_name=self.relationship_name)`
(modelled as an `Option UdrRel` argument: `none` when no relation instance
of that name exists), then
`remote_app_relation_data = relation.data.get(relation.app)`.
When `relation` is `None` the attribute access `relation.data` raises
`AttributeError`. When `relation.app` is `None`, `data.get(None)` yields
`None`; an empty remote databag is falsy in Python, so both cases take the
`if not remote_app_relation_data: return None` branch. Otherwise the value
is `remote_app_relation_data.get(key, None)`. -/

/-- Common body of the four `FiveGUDRRequires` field accessor properties,
specialised by the databag key. -/
def get_udr_field (key : String) : Option UdrRel → Except PyError (Option String)
  | none => .error .attributeError
  | some rel =>
    match rel.remoteApp with
    | none => .ok none
    | some _ =>
      if rel.remoteAppData.isEmpty then .ok none
      else .ok (lookupKey rel.remoteAppData key)

/-- `FiveGUDRRequires.udr_ipv4_address`. -/
def udr_ipv4_address (st : Option UdrRel) : Except PyError (Option String) :=
  get_udr_field "udr_ipv4_address" st

/-- `FiveGUDRRequires.udr_fqdn`. -/
def udr_fqdn (st : Option UdrRel) : Except PyError (Option String) :=
  get_udr_field "udr_fqdn" st

/-- `FiveGUDRRequires.udr_port`. -/
def udr_port (st : Option UdrRel) : Except PyError (Option String) :=
  get_udr_field "udr_port" st

/-- `FiveGUDRRequires.udr_api_version`. -/
def udr_api_version (st : Option UdrRel) : Except PyError (Option String) :=
  get_udr_field "udr_api_version" st

/-- Python truthiness of the accessor result, as used by the availability
properties (`if self.udr_ipv4_address: return True else: return False`):
`None` and the empty string are falsy. -/
def truthy : Except PyError (Option String) → Except PyError Bool
  | .error e => .error e
  | .ok none => .ok false
  | .ok (some v) => .ok (!v.isEmpty)

/-- `FiveGUDRRequires.udr_ipv4_address_available`. -/
def udr_ipv4_address_available (st : Option UdrRel) : Except PyError Bool :=
  truthy (udr_ipv4_address st)

/-- `FiveGUDRRequires.udr_fqdn_available`. -/
def udr_fqdn_available (st : Option UdrRel) : Except PyError Bool :=
  truthy (udr_fqdn st)

/-- `FiveGUDRRequires.udr_port_available`. -/
def udr_port_available (st : Option UdrRel) : Except PyError Bool :=
  truthy (udr_port st)

/-- `FiveGUDRRequires.udr_api_version_available`. -/
def udr_api_version_available (st : Option UdrRel) : Except PyError Bool :=
  truthy (udr_api_version st)

/-- `FiveGUDRRequires._on_relation_changed`, as a function of the event's
relation: its remote application (`relation.app`) and the remote
application's databag (`relation.data[relation.app]`). The result is the
emitted `udr_available` payload, or `none` when the handler returns without
emitting (no remote application, or one of the four keys missing). -/
def on_relation_changed (remoteApp : Option String)
    (remoteAppData : List (String × String)) : Option UDRRecord :=
  match remoteApp with
  | none => none
  | some _ =>
    if (lookupKey remoteAppData "udr_ipv4_address").isNone then none
    else if (lookupKey remoteAppData "udr_fqdn").isNone then none
    else if (lookupKey remoteAppData "udr_port").isNone then none
    else if (lookupKey remoteAppData "udr_api_version").isNone then none
    else some
      { udr_ipv4_address := (lookupKey remoteAppData "udr_ipv4_address").getD ""
        udr_fqdn := (lookupKey remoteAppData "udr_fqdn").getD ""
        udr_port := (lookupKey remoteAppData "udr_port").getD ""
        udr_api_version := (lookupKey remoteAppData "udr_api_version").getD "" }

/-! ### `FiveGUDRProvides` publisher -/

/-- The `relation.data[self.charm.app].update({...})` call of
`set_udr_information`: writes the four endpoint keys into one application
databag, leaving every other key's value unchanged. -/
def writeUdrRecord (d : List (String × String))
    (addr fqdn port api : String) : List (String × String) :=
  setKey (setKey (setKey (setKey d "udr_ipv4_address" addr)
    "udr_fqdn" fqdn) "udr_port" port) "udr_api_version" api

/-- `FiveGUDRProvides.set_udr_information`. `rels` is the list of relation
instances of the channel named `relationship_name`;
`self.model.get_relation(self.relationship_name, relation_id=relation_id)`
is modelled as the lookup of `relation_id` in that list. When no instance
with that id exists the method raises
`RuntimeError(f"Relation \x7bself.relationship_name\x7d not created yet.")`,
modelled as `Except.error` carrying the message — in which case no relation
data is written (the updated relation list exists only in the `ok` result).
Otherwise the four keys are written into this application's databag of that
instance. -/
def set_udr_information (relationship_name : String) (rels : List UdrRel)
    (udr_ipv4_addr udr_fqdn_v udr_port_v udr_api_version_v : String)
    (relation_id : Nat) : Except String (List UdrRel) :=
  if rels.any (fun r => r.id == relation_id) then
    .ok (rels.map (fun r =>
      if r.id == relation_id then
        { r with localAppData :=
            (writeUdrRecord r.localAppData udr_ipv4_addr udr_fqdn_v
              udr_port_v udr_api_version_v) }
      else r))
  else
    .error ("Relation " ++ relationship_name ++ " not created yet.")

/-! ### `Oai5GUDROperatorCharm` (src/charm.py) -/

/-- The unit status values set by the charm (`ops.model` status classes). -/
inductive UnitStatus where
  | waiting (msg : String)
  | blocked (msg : String)
  | active
  deriving Repr, DecidableEq

/-- Snapshot of the Juju model and workload as observed by one event
delivery to `Oai5GUDROperatorCharm`. The `fiveg-nrf` requirer library and
the `data_platform` database library are external collaborators not part of
this repository; their observable outputs (`nrf_ipv4_address_available`,
`fetch_relation_data()`) are inputs of the snapshot. -/
structure CharmState where
  /-- `self._container.can_connect()`. -/
  canConnect : Bool
  /-- `self.unit.is_leader()`. -/
  leader : Bool
  /-- `self.model.get_relation("database")`, reduced to the relation id. -/
  dbRelationId : Option Nat
  /-- `self.model.get_relation("fiveg-nrf")`, reduced to the relation id. -/
  nrfRelationId : Option Nat
  /-- `self.database.fetch_relation_data()`: mapping from relation id to
  the delivered databag (external `DatabaseRequires` library; it returns
  one entry per existing database relation). -/
  dbFetched : List (Nat × List (String × String))
  /-- `self.nrf_requires.nrf_ipv4_address_available` (external
  `FiveGNRFRequires` library). -/
  nrfIpv4AddressAvailable : Bool
  /-- The instances of the `fiveg-udr` channel. -/
  udrRelations : List UdrRel
  /-- Whether `self._container.get_service("udr")` succeeds (no
  `ModelError`). -/
  serviceExists : Bool
  /-- `service.is_running()` for the `udr` service. -/
  serviceRunning : Bool
  /-- `self.model.app.name`. -/
  appName : String
  /-- `self.model.name`. -/
  modelName : String
  deriving Repr

/-- `Oai5GUDROperatorCharm._config_nudr_interface_port`. -/
def config_nudr_interface_port : String := "80"

/-- `Oai5GUDROperatorCharm._config_nudr_interface_api_version`. -/
def config_nudr_interface_api_version : String := "v1"

/-- The `udr_fqdn` value published by the charm:
`f"\x7bself.model.app.name\x7d.\x7bself.model.name\x7d.svc.cluster.local"`. -/
def udr_fqdn_value (s : CharmState) : String :=
  s.appName ++ "." ++ s.modelName ++ ".svc.cluster.local"

/-- `Oai5GUDROperatorCharm._database_relation_created`
(via `_relation_created("database")`). -/
def database_relation_created (s : CharmState) : Bool :=
  s.dbRelationId.isSome

/-- `Oai5GUDROperatorCharm._nrf_relation_created`
(via `_relation_created("fiveg-nrf")`). -/
def nrf_relation_created (s : CharmState) : Bool :=
  s.nrfRelationId.isSome

/-- Lookup in the `fetch_relation_data()` result by relation id. -/
def lookupFetched : List (Nat × List (String × String)) → Nat →
    Option (List (String × String))
  | [], _ => none
  | (i, d) :: rest, j => if i = j then some d else lookupFetched rest j

/-- `Oai5GUDROperatorCharm._database_relation_data_is_available`: false when
`fetch_relation_data()` is empty (falsy), when no database relation exists,
or when any of `username`, `password`, `endpoints` is missing from the
fetched databag of the database relation. (The external library keys its
result by existing relation ids; a missing id is modelled as data not yet
available.) -/
def database_relation_data_is_available (s : CharmState) : Bool :=
  if s.dbFetched.isEmpty then false
  else
    match s.dbRelationId with
    | none => false
    | some relId =>
      match lookupFetched s.dbFetched relId with
      | none => false
      | some d =>
        if (lookupKey d "username").isNone then false
        else if (lookupKey d "password").isNone then false
        else if (lookupKey d "endpoints").isNone then false
        else true

/-- `Oai5GUDROperatorCharm._udr_service_started`: false when the container
is unreachable, when `get_service` raises `ModelError`, or when the service
is not running. -/
def udr_service_started (s : CharmState) : Bool :=
  s.canConnect && s.serviceExists && s.serviceRunning

/-- Modelled from the spec: `FiveGUDRProvides.set_udr_information_for_all_relations`
is called by `charm.py` (`_set_udr_information_for_all_relations`) but is
absent from the repository's copy of `lib/charms/oai_5g_udr/v0/fiveg_udr.py`;
the spec describes it as `publish_all(record)`, which "applies `publish` to
every currently joined instance of the channel". Accordingly it writes the
charm's own endpoint record into this application's databag of every
`fiveg-udr` relation instance. -/
def set_udr_information_for_all_relations (s : CharmState) : List UdrRel :=
  s.udrRelations.map (fun r =>
    { r with localAppData :=
        (writeUdrRecord r.localAppData "127.0.0.1" (udr_fqdn_value s)
          config_nudr_interface_port config_nudr_interface_api_version) })

/-- Outcome of one `_on_config_changed` delivery: the unit status set, and
the three side effects — `event.defer()`, `_push_config()` together with
`_update_pebble_layer()`, and the resulting `fiveg-udr` relation databags. -/
structure ConfigResult where
  status : UnitStatus
  deferred : Bool
  configPushed : Bool
  udrRelations : List UdrRel
  deriving Repr

/-- `Oai5GUDROperatorCharm._on_config_changed`: the ordered precondition
chain. Each failing check sets a terminal status and returns; only the
unreachable-container check defers the event. On success the config is
pushed, the pebble layer replanned, and — only on the leader — the charm's
endpoint record is published to all `fiveg-udr` relation instances; the
status becomes Active. -/
def on_config_changed (s : CharmState) : ConfigResult :=
  if !s.canConnect then
    { status := .waiting "Waiting for Pebble in workload container"
      deferred := true, configPushed := false, udrRelations := s.udrRelations }
  else if !(database_relation_created s) then
    { status := .blocked "Waiting for relation to database to be created"
      deferred := false, configPushed := false, udrRelations := s.udrRelations }
  else if !(nrf_relation_created s) then
    { status := .blocked "Waiting for relation to NRF to be created"
      deferred := false, configPushed := false, udrRelations := s.udrRelations }
  else if !(database_relation_data_is_available s) then
    { status := .waiting "Waiting for database relation data to be available"
      deferred := false, configPushed := false, udrRelations := s.udrRelations }
  else if !s.nrfIpv4AddressAvailable then
    { status := .waiting "Waiting for NRF IPv4 address to be available in relation data"
      deferred := false, configPushed := false, udrRelations := s.udrRelations }
  else
    { status := .active
      deferred := false
      configPushed := true
      udrRelations :=
        if s.leader then set_udr_information_for_all_relations s
        else s.udrRelations }

/-- Outcome of one `_on_fiveg_udr_relation_joined` delivery. -/
inductive JoinResult where
  /-- Non-leader: the handler returns immediately. -/
  | noop
  /-- Leader with the `udr` service not yet started: `event.defer()`. -/
  | deferredEvent
  /-- Leader with the service running: `set_udr_information` wrote the
  endpoint record, producing these relation instances. -/
  | published (rels : List UdrRel)
  /-- `set_udr_information` raised. -/
  | raised (msg : String)
  deriving Repr, DecidableEq

/-- Whether the join handler deferred the event. -/
def JoinResult.isDeferredEvent : JoinResult → Bool
  | .deferredEvent => true
  | _ => false

/-- `Oai5GUDROperatorCharm._on_fiveg_udr_relation_joined`, as a function of
the snapshot and the joined relation's id (`event.relation.id`). -/
def on_fiveg_udr_relation_joined (s : CharmState) (eventRelationId : Nat) :
    JoinResult :=
  if !s.leader then .noop
  else if !(udr_service_started s) then .deferredEvent
  else
    match set_udr_information "fiveg-udr" s.udrRelations "127.0.0.1"
      (udr_fqdn_value s) config_nudr_interface_port
      config_nudr_interface_api_version eventRelationId with
    | .ok rels => .published rels
    | .error m => .raised m

/-- Whether `set_udr_information` returned without raising. -/
def isOkResult : Except String (List UdrRel) → Bool
  | .ok _ => true
  | .error _ => false

/-! ### Concrete example inputs used to instantiate the theorems -/

/-- Container reachable, no relations at all, follower unit. -/
def exampleNoRelState : CharmState :=
  { canConnect := true, leader := false, dbRelationId := none
    nrfRelationId := none, dbFetched := [], nrfIpv4AddressAvailable := false
    udrRelations := [], serviceExists := false, serviceRunning := false
    appName := "oai-5g-udr", modelName := "whatever" }

/-- Two `fiveg-udr` relation instances, one with pre-existing local data. -/
def exampleRels : List UdrRel :=
  [{ id := 9, remoteApp := some "udm", remoteAppData := [], localAppData := [] },
   { id := 11, remoteApp := some "udm2", remoteAppData := [("x", "y")]
     localAppData := [("stale", "w")] }]

/-- Leader unit with container reachable, both relations established with
complete data, the `udr` service running, and two `fiveg-udr` instances. -/
def exampleActiveState : CharmState :=
  { canConnect := true, leader := true, dbRelationId := some 1
    nrfRelationId := some 2
    dbFetched := [(1, [("username", "u"), ("password", "p"),
      ("endpoints", "mysql:3306,alt:3306")])]
    nrfIpv4AddressAvailable := true, udrRelations := exampleRels
    serviceExists := true, serviceRunning := true
    appName := "oai-5g-udr", modelName := "whatever" }

/-- A `fiveg-udr` relation instance whose remote application is unknown. -/
def exampleNoAppRel : UdrRel :=
  { id := 3, remoteApp := none
    remoteAppData := [("udr_ipv4_address", "1.2.3.4")], localAppData := [] }

/-- A relation instance whose peer databag lacks `udr_ipv4_address`. -/
def exampleNoAddrRel : UdrRel :=
  { id := 4, remoteApp := some "udm"
    remoteAppData := [("udr_fqdn", "udr.example.com")], localAppData := [] }

/-! ## Helper lemmas -/

theorem lookupKey_setKey (d : List (String × String)) (k v k' : String) :
    lookupKey (setKey d k v) k' = if k' = k then some v else lookupKey d k' := by
  induction d with
  | nil =>
    simp only [setKey, lookupKey]
    by_cases h : k' = k
    · rw [if_pos h, if_pos h.symm]
    · rw [if_neg h, if_neg (fun h2 => h h2.symm)]
  | cons p rest ih =>
    obtain ⟨k'', v''⟩ := p
    simp only [setKey]
    by_cases h : k'' = k
    · subst h
      rw [if_pos rfl]
      simp only [lookupKey]
      by_cases h' : k'' = k'
      · rw [if_pos h', if_pos h'.symm]
      · rw [if_neg h', if_neg (fun h2 => h' h2.symm), if_neg h']
    · rw [if_neg h]
      simp only [lookupKey]
      by_cases h' : k'' = k'
      · subst h'
        rw [if_pos rfl, if_neg (fun h2 : k'' = k => h h2), if_pos rfl]
      · rw [if_neg h', ih, if_neg h']

theorem lookupKey_writeUdrRecord (d : List (String × String))
    (a f p v : String) :
    lookupKey (writeUdrRecord d a f p v) "udr_ipv4_address" = some a ∧
    lookupKey (writeUdrRecord d a f p v) "udr_fqdn" = some f ∧
    lookupKey (writeUdrRecord d a f p v) "udr_port" = some p ∧
    lookupKey (writeUdrRecord d a f p v) "udr_api_version" = some v := by
  simp [writeUdrRecord, lookupKey_setKey]

theorem lookupKey_writeUdrRecord_other (d : List (String × String))
    (a f p v k : String) (h1 : k ≠ "udr_ipv4_address") (h2 : k ≠ "udr_fqdn")
    (h3 : k ≠ "udr_port") (h4 : k ≠ "udr_api_version") :
    lookupKey (writeUdrRecord d a f p v) k = lookupKey d k := by
  simp [writeUdrRecord, lookupKey_setKey, h1, h2, h3, h4]

/-- Behaviour of `set_udr_information` on a joined relation id: it succeeds,
and the produced relation list updates exactly the instances with the given
id — writing exactly the four endpoint keys into their local application
databag and leaving everything else unchanged. -/
theorem set_udr_information_ok_spec (relname : String) (rels : List UdrRel)
    (a f p v : String) (rid : Nat)
    (h : rels.any (fun r => r.id == rid) = true) :
    ∃ rels', set_udr_information relname rels a f p v rid = .ok rels' ∧
      rels'.length = rels.length ∧
      ∀ i (hi : i < rels.length) (hi' : i < rels'.length),
        ((rels[i]).id ≠ rid → rels'[i] = rels[i]) ∧
        ((rels[i]).id = rid →
          (rels'[i]).id = (rels[i]).id ∧
          (rels'[i]).remoteApp = (rels[i]).remoteApp ∧
          (rels'[i]).remoteAppData = (rels[i]).remoteAppData ∧
          lookupKey (rels'[i]).localAppData "udr_ipv4_address" = some a ∧
          lookupKey (rels'[i]).localAppData "udr_fqdn" = some f ∧
          lookupKey (rels'[i]).localAppData "udr_port" = some p ∧
          lookupKey (rels'[i]).localAppData "udr_api_version" = some v ∧
          ∀ k, k ≠ "udr_ipv4_address" → k ≠ "udr_fqdn" → k ≠ "udr_port" →
            k ≠ "udr_api_version" →
            lookupKey (rels'[i]).localAppData k =
              lookupKey (rels[i]).localAppData k) := by
  refine ⟨rels.map (fun r =>
    if r.id == rid then
      { r with localAppData :=
          (writeUdrRecord r.localAppData a f p v) }
    else r), ?_, ?_, ?_⟩
  · simp [set_udr_information, h]
  · simp
  · intro i hi hi'
    constructor
    · intro hne
      simp [List.getElem_map, hne]
    · intro heq
      have hmap : (rels.map (fun r =>
          if r.id == rid then
            { r with localAppData := (writeUdrRecord r.localAppData a f p v) }
          else r))[i] =
          { rels[i] with
            localAppData := (writeUdrRecord (rels[i]).localAppData a f p v) } := by
        simp [List.getElem_map, heq]
      rw [hmap]
      refine ⟨rfl, rfl, rfl, ?_, ?_, ?_, ?_, ?_⟩
      · exact (lookupKey_writeUdrRecord _ a f p v).1
      · exact (lookupKey_writeUdrRecord _ a f p v).2.1
      · exact (lookupKey_writeUdrRecord _ a f p v).2.2.1
      · exact (lookupKey_writeUdrRecord _ a f p v).2.2.2
      · intro k h1 h2 h3 h4
        exact lookupKey_writeUdrRecord_other _ a f p v k h1 h2 h3 h4

/-- The availability predicate body is false whenever the accessed field is
absent or empty in the peer databag (given a relation instance exists). -/
theorem truthy_get_udr_field_false (key : String) (rel : UdrRel)
    (h : lookupKey rel.remoteAppData key = none ∨
      lookupKey rel.remoteAppData key = some "") :
    truthy (get_udr_field key (some rel)) = .ok false := by
  unfold get_udr_field
  cases happ : rel.remoteApp with
  | none => simp [happ, truthy]
  | some app =>
    by_cases he : rel.remoteAppData.isEmpty
    · simp [happ, he, truthy]
    · rcases h with h | h
      · simp [happ, he, h, truthy]
      · simp [happ, he, h, truthy]
        decide

/-! ## Claim theorems -/

/-- C1: `_on_config_changed` evaluates its preconditions in the fixed order
container-reachable, database relation, NRF relation, database data, NRF
address; the unit status is the one set by the first failing check (Waiting
for an unreachable runtime, Blocked for either missing relation, Waiting for
missing database data or missing NRF address). In particular, when both the
database and the NRF relations are absent and the container is reachable,
the status is Blocked with the database reason. -/
theorem c1_config_changed_precondition_order (s : CharmState) :
    (s.canConnect = false →
      (on_config_changed s).status =
        .waiting "Waiting for Pebble in workload container" ∧
      (on_config_changed s).deferred = true) ∧
    (s.canConnect = true → database_relation_created s = false →
      (on_config_changed s).status =
        .blocked "Waiting for relation to database to be created") ∧
    (s.canConnect = true → database_relation_created s = true →
      nrf_relation_created s = false →
      (on_config_changed s).status =
        .blocked "Waiting for relation to NRF to be created") ∧
    (s.canConnect = true → database_relation_created s = true →
      nrf_relation_created s = true →
      database_relation_data_is_available s = false →
      (on_config_changed s).status =
        .waiting "Waiting for database relation data to be available") ∧
    (s.canConnect = true → database_relation_created s = true →
      nrf_relation_created s = true →
      database_relation_data_is_available s = true →
      s.nrfIpv4AddressAvailable = false →
      (on_config_changed s).status =
        .waiting "Waiting for NRF IPv4 address to be available in relation data") ∧
    (s.canConnect = true → s.dbRelationId = none → s.nrfRelationId = none →
      (on_config_changed s).status =
        .blocked "Waiting for relation to database to be created") := by
  refine ⟨?_, ?_, ?_, ?_, ?_, ?_⟩
  · intro h1
    simp [on_config_changed, h1]
  · intro h1 h2
    simp [on_config_changed, h1, h2]
  · intro h1 h2 h3
    simp [on_config_changed, h1, h2, h3]
  · intro h1 h2 h3 h4
    simp [on_config_changed, h1, h2, h3, h4]
  · intro h1 h2 h3 h4 h5
    simp [on_config_changed, h1, h2, h3, h4, h5]
  · intro h1 h2 h3
    simp [on_config_changed, h1, database_relation_created, h2]

/-- C1 witness: with the container reachable and no relations at all, the
first failing check is the database one, so the status is Blocked with the
database reason (never the NRF reason). -/
theorem c1_config_changed_precondition_order_witness :
    (on_config_changed exampleNoRelState).status =
      .blocked "Waiting for relation to database to be created" :=
  (c1_config_changed_precondition_order exampleNoRelState).2.2.2.2.2 rfl rfl rfl

/-- C2: when all five preconditions hold and the unit is leader, the status
becomes Active and the charm's own endpoint record (`udr_ipv4_address`,
`udr_fqdn`, `udr_port`, `udr_api_version`) is written into this
application's databag of every joined `fiveg-udr` relation instance. -/
theorem c2_active_status_and_broadcast (s : CharmState)
    (h1 : s.canConnect = true) (h2 : database_relation_created s = true)
    (h3 : nrf_relation_created s = true)
    (h4 : database_relation_data_is_available s = true)
    (h5 : s.nrfIpv4AddressAvailable = true) (h6 : s.leader = true) :
    (on_config_changed s).status = .active ∧
    (on_config_changed s).udrRelations.length = s.udrRelations.length ∧
    ∀ i (hi : i < s.udrRelations.length)
      (hi' : i < (on_config_changed s).udrRelations.length),
      ((on_config_changed s).udrRelations[i]).id = (s.udrRelations[i]).id ∧
      ((on_config_changed s).udrRelations[i]).remoteApp =
        (s.udrRelations[i]).remoteApp ∧
      ((on_config_changed s).udrRelations[i]).remoteAppData =
        (s.udrRelations[i]).remoteAppData ∧
      lookupKey ((on_config_changed s).udrRelations[i]).localAppData
        "udr_ipv4_address" = some "127.0.0.1" ∧
      lookupKey ((on_config_changed s).udrRelations[i]).localAppData
        "udr_fqdn" = some (udr_fqdn_value s) ∧
      lookupKey ((on_config_changed s).udrRelations[i]).localAppData
        "udr_port" = some config_nudr_interface_port ∧
      lookupKey ((on_config_changed s).udrRelations[i]).localAppData
        "udr_api_version" = some config_nudr_interface_api_version := by
  have hres : on_config_changed s =
      { status := .active, deferred := false, configPushed := true
        udrRelations := set_udr_information_for_all_relations s } := by
    simp [on_config_changed, h1, h2, h3, h4, h5, h6]
  refine ⟨by rw [hres], ?_, ?_⟩
  · rw [hres]
    simp [set_udr_information_for_all_relations]
  · intro i hi hi'
    have hget : (on_config_changed s).udrRelations[i] =
        { s.udrRelations[i] with
          localAppData :=
            (writeUdrRecord (s.udrRelations[i]).localAppData "127.0.0.1"
              (udr_fqdn_value s) config_nudr_interface_port
              config_nudr_interface_api_version) } := by
      have : (on_config_changed s).udrRelations =
          set_udr_information_for_all_relations s := by rw [hres]
      simp only [this, set_udr_information_for_all_relations]
      simp [List.getElem_map]
    rw [hget]
    exact ⟨rfl, rfl, rfl,
      (lookupKey_writeUdrRecord _ _ _ _ _).1,
      (lookupKey_writeUdrRecord _ _ _ _ _).2.1,
      (lookupKey_writeUdrRecord _ _ _ _ _).2.2.1,
      (lookupKey_writeUdrRecord _ _ _ _ _).2.2.2⟩

/-- C2 witness: a concrete leader snapshot satisfying all preconditions
reaches Active status. -/
theorem c2_active_status_and_broadcast_witness :
    (on_config_changed exampleActiveState).status = .active :=
  (c2_active_status_and_broadcast exampleActiveState rfl rfl rfl rfl rfl
    rfl).1

/-- C3: the requirer's relation-changed handler emits `udr_available`
exactly when a remote application is present and all four keys
`udr_ipv4_address`, `udr_fqdn`, `udr_port`, `udr_api_version` are present
in its databag; with fewer keys, or no remote application, nothing is
emitted. -/
theorem c3_udr_available_iff_all_keys_present (remoteApp : Option String)
    (d : List (String × String)) :
    (on_relation_changed remoteApp d).isSome =
      (remoteApp.isSome && (lookupKey d "udr_ipv4_address").isSome &&
        (lookupKey d "udr_fqdn").isSome && (lookupKey d "udr_port").isSome &&
        (lookupKey d "udr_api_version").isSome) := by
  cases remoteApp with
  | none => simp [on_relation_changed]
  | some app =>
    cases e1 : lookupKey d "udr_ipv4_address" <;>
      cases e2 : lookupKey d "udr_fqdn" <;>
      cases e3 : lookupKey d "udr_port" <;>
      cases e4 : lookupKey d "udr_api_version" <;>
      simp [on_relation_changed, e1, e2, e3, e4]

/-- C4 counterexample: with no relation instance of the channel name, the
accessors and predicates do not return an absent value — they raise
`AttributeError` (`relation.data` with `relation = None`). -/
theorem c4_missing_relation_raises_counterexample :
    udr_ipv4_address none = .error .attributeError ∧
    udr_fqdn none = .error .attributeError ∧
    udr_port none = .error .attributeError ∧
    udr_api_version none = .error .attributeError ∧
    udr_ipv4_address_available none = .error .attributeError ∧
    udr_fqdn_available none = .error .attributeError ∧
    udr_port_available none = .error .attributeError ∧
    udr_api_version_available none = .error .attributeError :=
  ⟨rfl, rfl, rfl, rfl, rfl, rfl, rfl, rfl⟩

/-- C4 amended: when a relation instance exists but no peer application has
joined it, every accessor returns absent and every predicate false, without
raising; when no relation instance exists, they raise instead. -/
theorem c4_no_peer_app_returns_none (rel : UdrRel)
    (h : rel.remoteApp = none) :
    udr_ipv4_address (some rel) = .ok none ∧
    udr_fqdn (some rel) = .ok none ∧
    udr_port (some rel) = .ok none ∧
    udr_api_version (some rel) = .ok none ∧
    udr_ipv4_address_available (some rel) = .ok false ∧
    udr_fqdn_available (some rel) = .ok false ∧
    udr_port_available (some rel) = .ok false ∧
    udr_api_version_available (some rel) = .ok false := by
  have hfield : ∀ key, get_udr_field key (some rel) = .ok none := by
    intro key
    simp [get_udr_field, h]
  refine ⟨hfield _, hfield _, hfield _, hfield _, ?_, ?_, ?_, ?_⟩ <;>
    simp [udr_ipv4_address_available, udr_fqdn_available,
      udr_port_available, udr_api_version_available, udr_ipv4_address,
      udr_fqdn, udr_port, udr_api_version, hfield, truthy]

/-- C4 witness: concrete relation instance with an unknown remote
application. -/
theorem c4_no_peer_app_returns_none_witness :
    udr_ipv4_address (some exampleNoAppRel) = .ok none ∧
    udr_fqdn (some exampleNoAppRel) = .ok none ∧
    udr_port (some exampleNoAppRel) = .ok none ∧
    udr_api_version (some exampleNoAppRel) = .ok none ∧
    udr_ipv4_address_available (some exampleNoAppRel) = .ok false ∧
    udr_fqdn_available (some exampleNoAppRel) = .ok false ∧
    udr_port_available (some exampleNoAppRel) = .ok false ∧
    udr_api_version_available (some exampleNoAppRel) = .ok false :=
  c4_no_peer_app_returns_none exampleNoAppRel rfl

/-- C5 counterexample: a peer databag whose `udr_ipv4_address` entry is the
empty string still triggers the `udr_available` emission — the handler
checks key presence only, so an empty entry does not prevent the event. -/
theorem c5_empty_value_still_fires_counterexample :
    on_relation_changed (some "udm")
      [("udr_ipv4_address", ""), ("udr_fqdn", "udr.example.com"),
       ("udr_port", "80"), ("udr_api_version", "v1")] =
      some { udr_ipv4_address := "", udr_fqdn := "udr.example.com"
             udr_port := "80", udr_api_version := "v1" } := by
  decide

/-- C5 amended: whenever `udr_available` fires, its payload carries all
four fields, each equal to the (possibly empty) value present under the
corresponding key of the peer databag; emission requires presence of all
four keys, not non-emptiness. -/
theorem c5_payload_matches_databag (remoteApp : Option String)
    (d : List (String × String)) (r : UDRRecord)
    (h : on_relation_changed remoteApp d = some r) :
    lookupKey d "udr_ipv4_address" = some r.udr_ipv4_address ∧
    lookupKey d "udr_fqdn" = some r.udr_fqdn ∧
    lookupKey d "udr_port" = some r.udr_port ∧
    lookupKey d "udr_api_version" = some r.udr_api_version := by
  cases remoteApp with
  | none => simp [on_relation_changed] at h
  | some app =>
    cases e1 : lookupKey d "udr_ipv4_address" <;>
      cases e2 : lookupKey d "udr_fqdn" <;>
      cases e3 : lookupKey d "udr_port" <;>
      cases e4 : lookupKey d "udr_api_version" <;>
      simp [on_relation_changed, e1, e2, e3, e4] at h
    rw [← h]
    simp [e1, e2, e3, e4]

/-- C5 witness: the payload of a fired emission equals the databag values
of the four keys. -/
theorem c5_payload_matches_databag_witness :
    lookupKey [("udr_ipv4_address", "1.2.3.4"),
      ("udr_fqdn", "udr.example.com"), ("udr_port", "80"),
      ("udr_api_version", "v1")] "udr_ipv4_address" = some "1.2.3.4" ∧
    lookupKey [("udr_ipv4_address", "1.2.3.4"),
      ("udr_fqdn", "udr.example.com"), ("udr_port", "80"),
      ("udr_api_version", "v1")] "udr_fqdn" = some "udr.example.com" ∧
    lookupKey [("udr_ipv4_address", "1.2.3.4"),
      ("udr_fqdn", "udr.example.com"), ("udr_port", "80"),
      ("udr_api_version", "v1")] "udr_port" = some "80" ∧
    lookupKey [("udr_ipv4_address", "1.2.3.4"),
      ("udr_fqdn", "udr.example.com"), ("udr_port", "80"),
      ("udr_api_version", "v1")] "udr_api_version" = some "v1" :=
  c5_payload_matches_databag (some "udm")
    [("udr_ipv4_address", "1.2.3.4"), ("udr_fqdn", "udr.example.com"),
     ("udr_port", "80"), ("udr_api_version", "v1")]
    { udr_ipv4_address := "1.2.3.4", udr_fqdn := "udr.example.com"
      udr_port := "80", udr_api_version := "v1" } rfl

/-- C6: calling `set_udr_information` with a relation id for which no
instance of the channel exists raises `RuntimeError` (the function takes no
leadership input, so this holds regardless of leadership) and, since the
updated relation list exists only in the `ok` result, writes no relation
data. -/
theorem c6_set_udr_information_unjoined_raises (relname : String)
    (rels : List UdrRel) (a f p v : String) (rid : Nat)
    (h : rels.any (fun r => r.id == rid) = false) :
    set_udr_information relname rels a f p v rid =
      .error ("Relation " ++ relname ++ " not created yet.") := by
  simp [set_udr_information, h]

/-- C6 witness: publishing into an empty channel fails hard. -/
theorem c6_set_udr_information_unjoined_raises_witness :
    set_udr_information "fiveg-udr" [] "1.2.3.4" "udr.example.com" "80" "v1"
      7 = .error ("Relation " ++ "fiveg-udr" ++ " not created yet.") :=
  c6_set_udr_information_unjoined_raises "fiveg-udr" [] "1.2.3.4"
    "udr.example.com" "80" "v1" 7 rfl

/-- C7: on a `fiveg-udr` relation-joined event, a non-leader does nothing;
a leader whose `udr` service is not confirmed running defers and publishes
nothing; a leader with the service running publishes its endpoint record
scoped to only the newly joined relation instance's id, leaving every other
instance unchanged. -/
theorem c7_relation_joined_behaviour (s : CharmState) (rid : Nat) :
    (s.leader = false → on_fiveg_udr_relation_joined s rid = .noop) ∧
    (s.leader = true → udr_service_started s = false →
      on_fiveg_udr_relation_joined s rid = .deferredEvent) ∧
    (s.leader = true → udr_service_started s = true →
      s.udrRelations.any (fun r => r.id == rid) = true →
      ∃ rels', on_fiveg_udr_relation_joined s rid = .published rels' ∧
        rels'.length = s.udrRelations.length ∧
        ∀ i (hi : i < s.udrRelations.length) (hi' : i < rels'.length),
          ((s.udrRelations[i]).id ≠ rid → rels'[i] = s.udrRelations[i]) ∧
          ((s.udrRelations[i]).id = rid →
            lookupKey (rels'[i]).localAppData "udr_ipv4_address" =
              some "127.0.0.1" ∧
            lookupKey (rels'[i]).localAppData "udr_fqdn" =
              some (udr_fqdn_value s) ∧
            lookupKey (rels'[i]).localAppData "udr_port" =
              some config_nudr_interface_port ∧
            lookupKey (rels'[i]).localAppData "udr_api_version" =
              some config_nudr_interface_api_version)) := by
  refine ⟨?_, ?_, ?_⟩
  · intro h
    simp [on_fiveg_udr_relation_joined, h]
  · intro h1 h2
    simp [on_fiveg_udr_relation_joined, h1, h2]
  · intro h1 h2 h3
    obtain ⟨rels', hok, hlen, hframe⟩ :=
      set_udr_information_ok_spec "fiveg-udr" s.udrRelations "127.0.0.1"
        (udr_fqdn_value s) config_nudr_interface_port
        config_nudr_interface_api_version rid h3
    refine ⟨rels', ?_, hlen, ?_⟩
    · simp [on_fiveg_udr_relation_joined, h1, h2, hok]
    · intro i hi hi'
      obtain ⟨hother, hsame⟩ := hframe i hi hi'
      exact ⟨hother, fun heq =>
        ⟨(hsame heq).2.2.2.1, (hsame heq).2.2.2.2.1,
         (hsame heq).2.2.2.2.2.1, (hsame heq).2.2.2.2.2.2.1⟩⟩

/-- C7 witness: a non-leader join event is a no-op. -/
theorem c7_relation_joined_behaviour_witness :
    on_fiveg_udr_relation_joined exampleNoRelState 9 = .noop :=
  (c7_relation_joined_behaviour exampleNoRelState 9).1 rfl

/-- C8: across the two handlers, deferral happens exactly in two
situations: `_on_config_changed` defers precisely when the container is
unreachable, and `_on_fiveg_udr_relation_joined` defers precisely when the
unit is leader and the `udr` service is not yet confirmed running; every
other failing precondition sets a status without deferring. -/
theorem c8_defer_exactly_two_situations (s : CharmState) (rid : Nat) :
    (on_config_changed s).deferred = !s.canConnect ∧
    (on_fiveg_udr_relation_joined s rid).isDeferredEvent =
      (s.leader && !(udr_service_started s)) := by
  constructor
  · simp only [on_config_changed]
    split_ifs <;> simp_all
  · cases hl : s.leader with
    | false => simp [on_fiveg_udr_relation_joined, hl, JoinResult.isDeferredEvent]
    | true =>
      cases hs : udr_service_started s with
      | false =>
        simp [on_fiveg_udr_relation_joined, hl, hs,
          JoinResult.isDeferredEvent]
      | true =>
        simp only [on_fiveg_udr_relation_joined, hl, hs, Bool.not_true,
          Bool.not_false, Bool.and_false]
        cases e : set_udr_information "fiveg-udr" s.udrRelations "127.0.0.1"
          (udr_fqdn_value s) config_nudr_interface_port
          config_nudr_interface_api_version rid <;>
          simp [e, JoinResult.isDeferredEvent]

/-- C9: `set_udr_information` on a joined relation id writes exactly the
four endpoint keys into this application's databag of that instance;
every other key of that databag keeps its value, and all other relation
instances are completely unchanged. -/
theorem c9_set_udr_information_frame (relname : String) (rels : List UdrRel)
    (a f p v : String) (rid : Nat)
    (h : rels.any (fun r => r.id == rid) = true) :
    ∃ rels', set_udr_information relname rels a f p v rid = .ok rels' ∧
      rels'.length = rels.length ∧
      ∀ i (hi : i < rels.length) (hi' : i < rels'.length),
        ((rels[i]).id ≠ rid → rels'[i] = rels[i]) ∧
        ((rels[i]).id = rid →
          (rels'[i]).id = (rels[i]).id ∧
          (rels'[i]).remoteApp = (rels[i]).remoteApp ∧
          (rels'[i]).remoteAppData = (rels[i]).remoteAppData ∧
          lookupKey (rels'[i]).localAppData "udr_ipv4_address" = some a ∧
          lookupKey (rels'[i]).localAppData "udr_fqdn" = some f ∧
          lookupKey (rels'[i]).localAppData "udr_port" = some p ∧
          lookupKey (rels'[i]).localAppData "udr_api_version" = some v ∧
          ∀ k, k ≠ "udr_ipv4_address" → k ≠ "udr_fqdn" → k ≠ "udr_port" →
            k ≠ "udr_api_version" →
            lookupKey (rels'[i]).localAppData k =
              lookupKey (rels[i]).localAppData k) :=
  set_udr_information_ok_spec relname rels a f p v rid h

/-- C9 witness: publishing to relation id 9 of a concrete two-instance
channel succeeds. -/
theorem c9_set_udr_information_frame_witness :
    isOkResult (set_udr_information "fiveg-udr" exampleRels "1.2.3.4"
      "udr.example.com" "80" "v1" 9) = true := by
  obtain ⟨rels', hok, -, -⟩ :=
    c9_set_udr_information_frame "fiveg-udr" exampleRels "1.2.3.4"
      "udr.example.com" "80" "v1" 9 (by decide)
  rw [hok]
  rfl

/-- C10: each availability predicate is false whenever the corresponding
key is absent from the peer databag or present with an empty-string value:
availability requires a non-empty value, not mere key presence. -/
theorem c10_available_requires_nonempty (rel : UdrRel) :
    ((lookupKey rel.remoteAppData "udr_ipv4_address" = none ∨
      lookupKey rel.remoteAppData "udr_ipv4_address" = some "") →
      udr_ipv4_address_available (some rel) = .ok false) ∧
    ((lookupKey rel.remoteAppData "udr_fqdn" = none ∨
      lookupKey rel.remoteAppData "udr_fqdn" = some "") →
      udr_fqdn_available (some rel) = .ok false) ∧
    ((lookupKey rel.remoteAppData "udr_port" = none ∨
      lookupKey rel.remoteAppData "udr_port" = some "") →
      udr_port_available (some rel) = .ok false) ∧
    ((lookupKey rel.remoteAppData "udr_api_version" = none ∨
      lookupKey rel.remoteAppData "udr_api_version" = some "") →
      udr_api_version_available (some rel) = .ok false) :=
  ⟨fun h => truthy_get_udr_field_false "udr_ipv4_address" rel h,
   fun h => truthy_get_udr_field_false "udr_fqdn" rel h,
   fun h => truthy_get_udr_field_false "udr_port" rel h,
   fun h => truthy_get_udr_field_false "udr_api_version" rel h⟩

/-- C10 witness: a databag without `udr_ipv4_address` makes the address
predicate false. -/
theorem c10_available_requires_nonempty_witness :
    udr_ipv4_address_available (some exampleNoAddrRel) = .ok false :=
  (c10_available_requires_nonempty exampleNoAddrRel).1 (Or.inl rfl)

end FiveGUdr
